import Mathlib

/-!
# Judicial fee calculator: verification of the calculation engine

Shallow embedding of the calculation engine of the judicial-fee-calculator
repository (`src/calc.py`, `src/date_calc.py`, `src/interest_calc.py`).

Modelling conventions:
* Money and rates (Python `float`) are modelled as `ℚ`, following the spec's
  data model ("Money: a non-negative real-valued amount").  All fee formulas
  are affine with exact decimal coefficients, so `ℚ` reproduces them exactly;
  decimal literals such as `0.025` are written as the equal rationals
  `25 / 1000`.
* Python `datetime.date` values are triples (year, month, day); CPython's
  `date.toordinal()` is `days_before_year(y) + days_before_month(y, m) + d`,
  which `Date.toOrdinal` reproduces verbatim (including CPython's cumulative
  month table).  Date comparison and `timedelta` arithmetic coincide with
  ordinal comparison and integer arithmetic, and CPython's `date.weekday()`
  is `(toordinal + 6) % 7` (Monday = 0).
* The `while` loops of `calculate_days_between` and of the numeral formatter
  are written as fuel recursion; the fuel passed at each call site provably
  exceeds the number of iterations the loop can perform on valid input
  (the `..._stop` lemmas below show the loop really reached its `break`).
* Statements that can raise in Python (`IndexError` on string indexing)
  return `Option`, with `none` for the raising execution path.
-/

/-! ## Fee schedule engine (`src/calc.py`) -/

/-- `calc_property_case_fee` (calc.py lines 17-39): acceptance fee for
property cases, single-bracket lookup with affine formulas. -/
def calc_property_case_fee (amount : ℚ) : ℚ :=
  if amount ≤ 0 then 0
  else if amount ≤ 10000 then 50
  else if amount ≤ 100000 then amount * (25 / 1000) - 200
  else if amount ≤ 200000 then amount * (2 / 100) + 300
  else if amount ≤ 500000 then amount * (15 / 1000) + 1300
  else if amount ≤ 1000000 then amount * (1 / 100) + 3800
  else if amount ≤ 2000000 then amount * (9 / 1000) + 4800
  else if amount ≤ 5000000 then amount * (8 / 1000) + 6800
  else if amount ≤ 10000000 then amount * (7 / 1000) + 11800
  else if amount ≤ 20000000 then amount * (6 / 1000) + 21800
  else amount * (5 / 1000) + 41800

/-- `calc_preservation_fee` (calc.py lines 45-51): preservation fee,
capped at 5000. -/
def calc_preservation_fee (amount : ℚ) : ℚ :=
  if amount ≤ 0 ∨ amount ≤ 1000 then 30
  else if amount ≤ 100000 then amount * (1 / 100) + 20
  else min (amount * (5 / 1000) + 520) 5000

/-- `calc_execution_fee` (calc.py lines 58-75): execution fee, marginal-band
accumulation. -/
def calc_execution_fee (amount : ℚ) : ℚ :=
  if amount ≤ 0 then 50
  else if amount ≤ 10000 then 50
  else
    let fee : ℚ := 50 + max 0 (min amount 500000 - 10000) * (15 / 1000)
    let fee := if 500000 < amount then fee + (min amount 5000000 - 500000) * (1 / 100) else fee
    let fee := if 5000000 < amount then fee + (min amount 10000000 - 5000000) * (5 / 1000) else fee
    let fee := if 10000000 < amount then fee + (amount - 10000000) * (1 / 1000) else fee
    fee

/-- The `NonPropertyType` `Literal` declaration (calc.py lines 81-88): the
declared closed enumeration of non-property case types. -/
def NonPropertyTypeValues : List String :=
  ["离婚无财产案件", "人格权侵权案件", "其他非财产案件", "劳动人事争议",
   "行政-商标/专利/海事海商", "行政-其他"]

/-- `calc_non_property_case` (calc.py lines 90-118): dispatch on the case-type
string.  Note the first two branches compare against the strings
"离婚无财产案件（基数200）" and "人格权侵权案件（基数100）", which differ from the
declared `Literal` values. -/
def calc_non_property_case (case_type : String) (amount : ℚ) : ℚ :=
  if case_type = "离婚无财产案件（基数200）" then
    if amount ≤ 200000 then 200 else 200 + (amount - 200000) * (5 / 1000)
  else if case_type = "人格权侵权案件（基数100）" then
    if amount ≤ 50000 then 100
    else if amount ≤ 100000 then 100 + (amount - 50000) * (1 / 100)
    else 100 + 500 + (amount - 100000) * (5 / 1000)
  else if case_type = "其他非财产案件" then 70
  else if case_type = "劳动人事争议" then 10
  else if case_type = "行政-商标/专利/海事海商" then 100
  else if case_type = "行政-其他" then 50
  else 0

/-! ## Calendar arithmetic

`datetime.date` model.  `isLeap`, `daysInMonth` follow `calendar.isleap` /
`calendar.monthrange`; `monthTable`, `daysBeforeMonth`, `daysBeforeYear` and
`Date.toOrdinal` follow CPython's `_DAYS_BEFORE_MONTH`, `_days_before_month`,
`_days_before_year` and `date.toordinal`. -/

def isLeap (y : ℕ) : Bool :=
  y % 4 == 0 && (y % 100 != 0 || y % 400 == 0)

def daysInMonth (y m : ℕ) : ℕ :=
  if m = 2 then (if isLeap y then 29 else 28)
  else if m = 4 ∨ m = 6 ∨ m = 9 ∨ m = 11 then 30
  else 31

/-- CPython's `_DAYS_BEFORE_MONTH` table (cumulative days before month `m`
in a non-leap year). -/
def monthTable : ℕ → ℕ
  | 1 => 0 | 2 => 31 | 3 => 59 | 4 => 90 | 5 => 120 | 6 => 151
  | 7 => 181 | 8 => 212 | 9 => 243 | 10 => 273 | 11 => 304 | 12 => 334
  | _ => 0

/-- CPython `_days_before_month`. -/
def daysBeforeMonth (y m : ℕ) : ℕ :=
  monthTable m + (if 2 < m ∧ isLeap y then 1 else 0)

/-- CPython `_days_before_year`. -/
def daysBeforeYear (y : ℕ) : ℕ :=
  365 * (y - 1) + (y - 1) / 4 - (y - 1) / 100 + (y - 1) / 400

structure Date where
  year : ℕ
  month : ℕ
  day : ℕ

/-- CPython `date.toordinal()`: day 1 is 0001-01-01. -/
def Date.toOrdinal (d : Date) : ℕ :=
  daysBeforeYear d.year + daysBeforeMonth d.year d.month + d.day

/-- The constructor invariant of `datetime.date`. -/
def Date.Valid (d : Date) : Prop :=
  1 ≤ d.year ∧ 1 ≤ d.month ∧ d.month ≤ 12 ∧ 1 ≤ d.day ∧ d.day ≤ daysInMonth d.year d.month

instance (d : Date) : Decidable d.Valid := by
  unfold Date.Valid; infer_instance

/-- Linear month index (proof device): months counted from year 0. -/
def Date.lin (d : Date) : ℕ := 12 * d.year + (d.month - 1)

/-- Ordinal of the first day of linear month `l`, minus the day offset
(proof device). -/
def mstart (l : ℕ) : ℕ :=
  daysBeforeYear (l / 12) + daysBeforeMonth (l / 12) (l % 12 + 1)

/-! ## `calculate_days_between` (`src/interest_calc.py` lines 65-122) -/

/-- The year step of `calculate_days_between`:
`current_date.replace(year=current_date.year + 1)`, substituting day 28 when
that raises `ValueError` (for a valid date this happens exactly when the
day does not exist in the incremented year, i.e. Feb-29 to a non-leap year). -/
def addYearPy (d : Date) : Date :=
  if d.day ≤ daysInMonth (d.year + 1) d.month then ⟨d.year + 1, d.month, d.day⟩
  else ⟨d.year + 1, d.month, 28⟩

/-- The month step of `calculate_days_between`: next month with the same
day-of-month clamped to `calendar.monthrange(next_year, next_month)[1]`.
The `replace` in the source cannot raise here because the clamped day is
always valid, so the `except ValueError: break` branch is dead code. -/
def nextMonthDate (d : Date) : Date :=
  if d.month = 12 then ⟨d.year + 1, 1, min d.day (daysInMonth (d.year + 1) 1)⟩
  else ⟨d.year, d.month + 1, min d.day (daysInMonth d.year (d.month + 1))⟩

/-- The `while True` year loop: greedily add whole years while the result
stays `≤ end`.  Fuel recursion; the call site passes fuel `e.year + 1`,
which exceeds the number of accepted steps (each step increments the year
and accepted steps never pass `e.year`, see `yearLoopF_stop`). -/
def yearLoopF : ℕ → Date → Date → ℕ × Date
  | 0, _, cur => (0, cur)
  | fuel + 1, e, cur =>
    if (addYearPy cur).toOrdinal ≤ e.toOrdinal then
      ((yearLoopF fuel e (addYearPy cur)).1 + 1, (yearLoopF fuel e (addYearPy cur)).2)
    else (0, cur)

/-- The `while True` month loop: greedily add whole months while the result
stays `≤ end`.  Fuel recursion; the call site passes fuel 14, which exceeds
the number of accepted steps (at most 12, see `monthLoopF_stop`). -/
def monthLoopF : ℕ → Date → Date → ℕ × Date
  | 0, _, cur => (0, cur)
  | fuel + 1, e, cur =>
    if (nextMonthDate cur).toOrdinal ≤ e.toOrdinal then
      ((monthLoopF fuel e (nextMonthDate cur)).1 + 1, (monthLoopF fuel e (nextMonthDate cur)).2)
    else (0, cur)

/-- `calculate_days_between` (interest_calc.py lines 65-122): returns
`(0, 0, 0)` if `start > end`, otherwise greedy whole years, then greedy
whole months, then the raw remaining day count `(end - current).days`. -/
def calculate_days_between (s e : Date) : ℕ × ℕ × ℤ :=
  if e.toOrdinal < s.toOrdinal then (0, 0, 0)
  else
    ((yearLoopF (e.year + 1) e s).1,
     (monthLoopF 14 e (yearLoopF (e.year + 1) e s).2).1,
     (e.toOrdinal : ℤ) - ((monthLoopF 14 e (yearLoopF (e.year + 1) e s).2).2.toOrdinal : ℤ))

/-! ## Court-date scheduler (`src/date_calc.py` and `src/calc.py` lines 146-181)

Dates are represented by their ordinals (`ℤ`); `date + timedelta(days=n)` is
ordinal addition and CPython's `date.weekday()` is `(toordinal + 6) % 7`. -/

/-- Python `d.weekday()`, Monday = 0 ... Sunday = 6. -/
def weekday (d : ℤ) : ℤ := (d + 6) % 7

/-- `is_weekend` (date_calc.py lines 9-11 and identically calc.py
lines 146-148): `d.weekday() >= 5`. -/
def is_weekend (d : ℤ) : Bool := decide (5 ≤ weekday d)

/-- `get_next_monday` (date_calc.py lines 13-16 and identically calc.py
lines 150-153): `d + timedelta(days=7 - d.weekday())`. -/
def get_next_monday (d : ℤ) : ℤ := d + (7 - weekday d)

namespace DateCalc

/-- Two-argument `calculate_court_date` (date_calc.py lines 18-42). -/
def calculate_court_date (start_date : ℤ) (total_days : ℤ) : ℤ × ℤ :=
  if total_days < 0 then (start_date, start_date)
  else
    let current := start_date + 1
    let current := if 0 < total_days then current + total_days else current
    if is_weekend current then (current, get_next_monday current)
    else (current, current)

end DateCalc

namespace CalcMod

/-- Four-argument `calculate_court_date` (calc.py lines 155-181): key-date
list plus final court date. -/
def calculate_court_date (notice_date notice_days reply_days court_day : ℤ) :
    List ℤ × ℤ :=
  let notice_end := notice_date + notice_days
  let reply_end := notice_end + reply_days
  let court_date := reply_end + court_day
  let final_court_date :=
    if is_weekend court_date then get_next_monday court_date else court_date
  ([notice_date, notice_end, reply_end, court_date, final_court_date],
   final_court_date)

end CalcMod

/-! ## Interest (`src/interest_calc.py` lines 124-154) -/

inductive RateType where
  | day
  | month
  | year

/-- Python's `round(x)` to an integer: round half to even. -/
def pyRound (q : ℚ) : ℤ :=
  if q - ⌊q⌋ < 1 / 2 then ⌊q⌋
  else if (1 : ℚ) / 2 < q - ⌊q⌋ then ⌊q⌋ + 1
  else if ⌊q⌋ % 2 = 0 then ⌊q⌋ else ⌊q⌋ + 1

/-- Python's `round(x, 2)`: round half to even at two decimal places. -/
def round2 (q : ℚ) : ℚ := (pyRound (q * 100) : ℚ) / 100

/-- `calculate_interest` (interest_calc.py lines 124-154). -/
def calculate_interest (amount rate : ℚ) (rate_type : RateType)
    (start_date end_date : Date) (days_base : ℤ) : ℚ :=
  if end_date.toOrdinal < start_date.toOrdinal ∨ amount ≤ 0 ∨ rate ≤ 0 then 0
  else
    let annual_rate :=
      match rate_type with
      | .day => rate * (days_base : ℚ)
      | .month => rate * 12
      | .year => rate
    let days : ℤ := (end_date.toOrdinal : ℤ) - (start_date.toOrdinal : ℤ)
    round2 (amount * (annual_rate / 100) * ((days : ℚ) / (days_base : ℚ)))

/-! ## Numeral formatter (`src/interest_calc.py` lines 12-63)

`convert_to_chinese_number`.  String indexing that can raise `IndexError`
in Python (`nums[jiao]` when the rounded cents reach 100, `big_units[group]`
when the integer part reaches 10^16) is modelled with `Option`: `none` is
the raising execution. -/

/-- The character table `nums = "零壹贰叁肆伍陆柒捌玖"`; callers below only pass
indices `< 10` (`digit = part % 10`, `fen = decimal_part % 10`), matching the
in-bounds Python indexings. -/
def numsStr : ℕ → String
  | 0 => "零" | 1 => "壹" | 2 => "贰" | 3 => "叁" | 4 => "肆"
  | 5 => "伍" | 6 => "陆" | 7 => "柒" | 8 => "捌" | 9 => "玖"
  | _ => ""

/-- The table `units = ["", "拾", "佰", "仟"]`; only indices `0..3` occur. -/
def unitsStr : ℕ → String
  | 0 => "" | 1 => "拾" | 2 => "佰" | 3 => "仟"
  | _ => ""

/-- The table `big_units = ["", "万", "亿", "兆"]`; `big_units[group]` raises
`IndexError` for `group ≥ 4`, hence `Option`. -/
def bigUnits : ℕ → Option String
  | 0 => some "" | 1 => some "万" | 2 => some "亿" | 3 => some "兆"
  | _ => none

/-- One iteration `i` of the `for i in range(4)` digit loop over
`(part, part_str, zero_flag)`. -/
def innerStep (i : ℕ) : ℕ × String × Bool → ℕ × String × Bool
  | (part, ps, zf) =>
    let digit := part % 10
    if digit ≠ 0 then (part / 10, numsStr digit ++ unitsStr i ++ ps, false)
    else if ¬ ps.startsWith "零" ∧ ps ≠ "" then (part / 10, "零" ++ ps, zf)
    else (part / 10, ps, zf)

/-- The `while int_part > 0` group loop building the integer-part string.
Fuel recursion; the call site passes fuel `int_part + 1`, which exceeds the
iteration count since `int_part //= 10000` at least halves a positive value. -/
def intLoopF : ℕ → ℕ → ℕ → Bool → String → Option String
  | fuel, ip, group, zf, result =>
    if ip = 0 then some result
    else
      match fuel with
      | 0 => none
      | fuel + 1 =>
        let part := ip % 10000
        if part = 0 then
          intLoopF fuel (ip / 10000) (group + 1) true
            (if zf = false ∧ result ≠ "" then "零" ++ result else result)
        else
          let st := innerStep 3 (innerStep 2 (innerStep 1 (innerStep 0 (part, "", zf))))
          match bigUnits group with
          | none => none
          | some bu => intLoopF fuel (ip / 10000) (group + 1) st.2.2 (st.2.1 ++ bu ++ result)

/-- Python `int(num)`: truncation toward zero; equal to the floor on the
non-negative inputs `convert_nonneg` is invoked with (the wrapper recurses
on `-num` first when `num < 0`). -/
def pyInt (q : ℚ) : ℤ := ⌊q⌋

/-- The fractional suffix: `"整"` when the rounded cents are 0, otherwise the
jiao and fen characters for the nonzero digits.  `nums[jiao]` raises
(`none`) when `jiao` is out of the table, i.e. when the cents reach 100;
negative cents cannot occur for the non-negative wrapper input. -/
def fracSuffix (dec : ℤ) : Option String :=
  if dec = 0 then some "整"
  else
    let jiao := dec / 10
    let fen := dec % 10
    if 10 ≤ jiao ∨ jiao < 0 then none
    else
      some ((if jiao = 0 then "" else numsStr jiao.toNat ++ "角") ++
            (if fen = 0 then "" else numsStr fen.toNat ++ "分"))

/-- `convert_to_chinese_number` on a non-negative argument. -/
def convert_nonneg (num : ℚ) : Option String :=
  let ip := pyInt num
  let dec := pyRound ((num - (ip : ℚ)) * 100)
  let core : Option String :=
    if ip = 0 then some "零" else intLoopF (ip.toNat + 1) ip.toNat 0 false ""
  match core, fracSuffix dec with
  | some r, some suf => some (r ++ "元" ++ suf)
  | _, _ => none

/-- `convert_to_chinese_number` (interest_calc.py lines 12-63). -/
def convert_to_chinese_number (num : ℚ) : Option String :=
  if num < 0 then (convert_nonneg (-num)).map (fun s => "负" ++ s)
  else convert_nonneg num

/-! ## Calendar lemmas -/

theorem isLeap_iff (y : ℕ) :
    isLeap y = true ↔ (y % 4 = 0 ∧ (¬ y % 100 = 0 ∨ y % 400 = 0)) := by
  simp [isLeap]

theorem daysInMonth_le (y m : ℕ) : daysInMonth y m ≤ 31 := by
  unfold daysInMonth
  split_ifs <;> omega

theorem daysInMonth_ge (y m : ℕ) : 28 ≤ daysInMonth y m := by
  unfold daysInMonth
  split_ifs <;> omega

theorem daysBeforeYear_succ (y : ℕ) (hy : 1 ≤ y) :
    daysBeforeYear (y + 1) = daysBeforeYear y + (if isLeap y then 366 else 365) := by
  unfold daysBeforeYear
  by_cases h4 : y % 4 = 0 <;> by_cases h100 : y % 100 = 0 <;> by_cases h400 : y % 400 = 0 <;>
    simp only [isLeap, h4, h100, h400, beq_iff_eq, bne_iff_ne, ne_eq, Bool.and_eq_true,
      Bool.or_eq_true, decide_eq_true_eq, not_true_eq_false, not_false_eq_true,
      true_and, false_and, and_true, and_false, true_or, or_true, false_or, or_false,
      if_true, if_false, Nat.add_sub_cancel] <;>
    first
      | exact absurd (by omega : y % 100 = 0) h100
      | (have e4 : y / 4 = (y - 1) / 4 + 1 := by omega
         have e100 : y / 100 = (y - 1) / 100 + 1 := by omega
         have e400 : y / 400 = (y - 1) / 400 + 1 := by omega
         omega)
      | (have e4 : y / 4 = (y - 1) / 4 + 1 := by omega
         have e100 : y / 100 = (y - 1) / 100 + 1 := by omega
         have e400 : y / 400 = (y - 1) / 400 := by omega
         omega)
      | (have e4 : y / 4 = (y - 1) / 4 + 1 := by omega
         have e100 : y / 100 = (y - 1) / 100 := by omega
         have e400 : y / 400 = (y - 1) / 400 := by omega
         omega)
      | (have e4 : y / 4 = (y - 1) / 4 := by omega
         have e100 : y / 100 = (y - 1) / 100 := by omega
         have e400 : y / 400 = (y - 1) / 400 := by omega
         omega)

theorem daysBeforeMonth_succ (y m : ℕ) (h1 : 1 ≤ m) (h2 : m ≤ 11) :
    daysBeforeMonth y (m + 1) = daysBeforeMonth y m + daysInMonth y m := by
  unfold daysBeforeMonth daysInMonth
  interval_cases m <;>
    by_cases h : isLeap y <;> simp [monthTable, h]

theorem daysBeforeMonth_year (y : ℕ) :
    daysBeforeMonth y 12 + daysInMonth y 12 = if isLeap y then 366 else 365 := by
  unfold daysBeforeMonth daysInMonth
  by_cases h : isLeap y <;> simp [monthTable, h]

theorem mstart_succ (l : ℕ) (hl : 12 ≤ l) :
    mstart (l + 1) = mstart l + daysInMonth (l / 12) (l % 12 + 1) := by
  unfold mstart
  rcases Nat.lt_or_ge (l % 12) 11 with h | h
  · have e1 : (l + 1) / 12 = l / 12 := by omega
    have e2 : (l + 1) % 12 = l % 12 + 1 := by omega
    rw [e1, e2]
    rw [daysBeforeMonth_succ (l / 12) (l % 12 + 1) (by omega) (by omega)]
    ring
  · have h11 : l % 12 = 11 := by omega
    have e1 : (l + 1) / 12 = l / 12 + 1 := by omega
    have e2 : (l + 1) % 12 = 0 := by omega
    rw [e1, e2, h11]
    simp only [Nat.reduceAdd]
    have hy : 1 ≤ l / 12 := by omega
    rw [daysBeforeYear_succ (l / 12) hy]
    have h12 := daysBeforeMonth_year (l / 12)
    have h0 : daysBeforeMonth (l / 12 + 1) 1 = 0 := by
      simp [daysBeforeMonth, monthTable]
    omega

theorem mstart_mono (l l' : ℕ) (h12 : 12 ≤ l) (h : l ≤ l') : mstart l ≤ mstart l' := by
  induction l' , h using Nat.le_induction with
  | base => exact le_rfl
  | succ k hk ih =>
    have := mstart_succ k (by omega)
    omega

theorem Date.lin_ge_twelve (d : Date) (hd : d.Valid) : 12 ≤ d.lin := by
  obtain ⟨h1, h2, h3, h4, h5⟩ := hd
  unfold Date.lin
  omega

theorem Date.toOrdinal_eq (d : Date) (hd : d.Valid) :
    d.toOrdinal = mstart d.lin + d.day := by
  obtain ⟨h1, h2, h3, h4, h5⟩ := hd
  unfold Date.toOrdinal mstart Date.lin
  have e1 : (12 * d.year + (d.month - 1)) / 12 = d.year := by omega
  have e2 : (12 * d.year + (d.month - 1)) % 12 + 1 = d.month := by omega
  rw [e1, e2]

theorem lin_lt_ord_lt (a b : Date) (ha : a.Valid) (hb : b.Valid)
    (h : a.lin < b.lin) : a.toOrdinal < b.toOrdinal := by
  rw [Date.toOrdinal_eq a ha, Date.toOrdinal_eq b hb]
  have h12a : 12 ≤ a.lin := a.lin_ge_twelve ha
  have hda : a.day ≤ daysInMonth (a.lin / 12) (a.lin % 12 + 1) := by
    obtain ⟨h1, h2, h3, h4, h5⟩ := ha
    unfold Date.lin
    have e1 : (12 * a.year + (a.month - 1)) / 12 = a.year := by omega
    have e2 : (12 * a.year + (a.month - 1)) % 12 + 1 = a.month := by omega
    rw [e1, e2]
    exact h5
  have hs := mstart_succ a.lin h12a
  have hm : mstart (a.lin + 1) ≤ mstart b.lin := mstart_mono _ _ (by omega) (by omega)
  have hdb : 1 ≤ b.day := hb.2.2.2.1
  omega

/-! ## Step lemmas for the year/month loops -/

theorem addYearPy_year (d : Date) : (addYearPy d).year = d.year + 1 := by
  unfold addYearPy
  split_ifs <;> rfl

theorem addYearPy_lin (d : Date) : (addYearPy d).lin = d.lin + 12 := by
  unfold addYearPy Date.lin
  split_ifs <;> simp <;> ring

theorem addYearPy_valid (d : Date) (hd : d.Valid) : (addYearPy d).Valid := by
  obtain ⟨h1, h2, h3, h4, h5⟩ := hd
  have h28 := daysInMonth_ge (d.year + 1) d.month
  unfold addYearPy
  split_ifs with h <;> simp [Date.Valid] <;> omega

theorem addYearPy_ord_gt (d : Date) (hd : d.Valid) :
    d.toOrdinal < (addYearPy d).toOrdinal := by
  apply lin_lt_ord_lt d _ hd (addYearPy_valid d hd)
  rw [addYearPy_lin]
  omega

theorem nextMonthDate_lin (d : Date) (hd : d.Valid) :
    (nextMonthDate d).lin = d.lin + 1 := by
  obtain ⟨h1, h2, h3, h4, h5⟩ := hd
  unfold nextMonthDate Date.lin
  split_ifs with h <;> simp <;> omega

theorem nextMonthDate_valid (d : Date) (hd : d.Valid) : (nextMonthDate d).Valid := by
  obtain ⟨h1, h2, h3, h4, h5⟩ := hd
  unfold nextMonthDate
  split_ifs with h <;> simp [Date.Valid] <;>
    first
      | (have h28 := daysInMonth_ge (d.year + 1) 1
         omega)
      | (have h28 := daysInMonth_ge d.year (d.month + 1)
         omega)

theorem nextMonthDate_ord_gt (d : Date) (hd : d.Valid) :
    d.toOrdinal < (nextMonthDate d).toOrdinal := by
  apply lin_lt_ord_lt d _ hd (nextMonthDate_valid d hd)
  rw [nextMonthDate_lin d hd]
  omega

theorem nextMonthDate_ord_le (d : Date) (hd : d.Valid) :
    (nextMonthDate d).toOrdinal ≤ d.toOrdinal + 31 := by
  have hv := nextMonthDate_valid d hd
  rw [Date.toOrdinal_eq _ hv, Date.toOrdinal_eq _ hd, nextMonthDate_lin d hd]
  have h12 : 12 ≤ d.lin := d.lin_ge_twelve hd
  rw [mstart_succ d.lin h12]
  have hdim : daysInMonth (d.lin / 12) (d.lin % 12 + 1) ≤ 31 := daysInMonth_le _ _
  have hmin : (nextMonthDate d).day ≤ d.day := by
    unfold nextMonthDate
    split_ifs <;> simp
  omega

/-! ## Loop lemmas -/

theorem yearLoopF_valid (f : ℕ) (e cur : Date) (hc : cur.Valid) :
    ((yearLoopF f e cur).2).Valid := by
  induction f generalizing cur with
  | zero => exact hc
  | succ f ih =>
    unfold yearLoopF
    split_ifs with h
    · exact ih _ (addYearPy_valid cur hc)
    · exact hc

theorem yearLoopF_ord_le (f : ℕ) (e cur : Date) (hc : cur.toOrdinal ≤ e.toOrdinal) :
    ((yearLoopF f e cur).2).toOrdinal ≤ e.toOrdinal := by
  induction f generalizing cur with
  | zero => exact hc
  | succ f ih =>
    unfold yearLoopF
    split_ifs with h
    · exact ih _ h
    · exact hc

theorem yearLoopF_stop (f : ℕ) (e cur : Date) (hc : cur.Valid) (he : e.Valid)
    (hf : e.year + 2 ≤ cur.year + f) :
    e.toOrdinal < (addYearPy ((yearLoopF f e cur).2)).toOrdinal := by
  induction f generalizing cur with
  | zero =>
    apply lin_lt_ord_lt e _ he (addYearPy_valid cur hc)
    rw [addYearPy_lin]
    have h1 : e.lin = 12 * e.year + (e.month - 1) := rfl
    have h2 : cur.lin = 12 * cur.year + (cur.month - 1) := rfl
    have h3 : e.month ≤ 12 := he.2.2.1
    omega
  | succ f ih =>
    unfold yearLoopF
    split_ifs with h
    · exact ih _ (addYearPy_valid cur hc) (by rw [addYearPy_year]; omega)
    · simpa using Nat.lt_of_not_le h

theorem monthLoopF_valid (f : ℕ) (e cur : Date) (hc : cur.Valid) :
    ((monthLoopF f e cur).2).Valid := by
  induction f generalizing cur with
  | zero => exact hc
  | succ f ih =>
    unfold monthLoopF
    split_ifs with h
    · exact ih _ (nextMonthDate_valid cur hc)
    · exact hc

theorem monthLoopF_ord_le (f : ℕ) (e cur : Date) (hc : cur.toOrdinal ≤ e.toOrdinal) :
    ((monthLoopF f e cur).2).toOrdinal ≤ e.toOrdinal := by
  induction f generalizing cur with
  | zero => exact hc
  | succ f ih =>
    unfold monthLoopF
    split_ifs with h
    · exact ih _ h
    · exact hc

theorem monthLoopF_lin (f : ℕ) (e cur : Date) (hc : cur.Valid) :
    ((monthLoopF f e cur).2).lin = cur.lin + (monthLoopF f e cur).1 := by
  induction f generalizing cur with
  | zero => simp [monthLoopF]
  | succ f ih =>
    unfold monthLoopF
    split_ifs with h
    · simp only
      rw [ih _ (nextMonthDate_valid cur hc), nextMonthDate_lin cur hc]
      ring
    · simp

theorem monthLoopF_stop (f : ℕ) (e cur A : Date) (hc : cur.Valid) (hA : A.Valid)
    (hAe : e.toOrdinal < A.toOrdinal) (hf : A.lin + 2 ≤ cur.lin + f) :
    e.toOrdinal < (nextMonthDate ((monthLoopF f e cur).2)).toOrdinal := by
  induction f generalizing cur with
  | zero =>
    have hlt : A.toOrdinal < (nextMonthDate cur).toOrdinal := by
      apply lin_lt_ord_lt A _ hA (nextMonthDate_valid cur hc)
      rw [nextMonthDate_lin cur hc]
      omega
    simp only [monthLoopF]
    omega
  | succ f ih =>
    unfold monthLoopF
    split_ifs with h
    · exact ih _ (nextMonthDate_valid cur hc) (by rw [nextMonthDate_lin cur hc]; omega)
    · simpa using Nat.lt_of_not_le h

/-! ## Bracket-table lemmas for `calc_property_case_fee` -/

/-- Exhaustive bracket decomposition of `calc_property_case_fee`. -/
theorem fee_cases (x : ℚ) :
    (x ≤ 0 ∧ x ≤ 0 ∧ calc_property_case_fee x = 0) ∨
    (0 < x ∧ x ≤ 10000 ∧ calc_property_case_fee x = 50) ∨
    (10000 < x ∧ x ≤ 100000 ∧ calc_property_case_fee x = x * (25 / 1000) - 200) ∨
    (100000 < x ∧ x ≤ 200000 ∧ calc_property_case_fee x = x * (2 / 100) + 300) ∨
    (200000 < x ∧ x ≤ 500000 ∧ calc_property_case_fee x = x * (15 / 1000) + 1300) ∨
    (500000 < x ∧ x ≤ 1000000 ∧ calc_property_case_fee x = x * (1 / 100) + 3800) ∨
    (1000000 < x ∧ x ≤ 2000000 ∧ calc_property_case_fee x = x * (9 / 1000) + 4800) ∨
    (2000000 < x ∧ x ≤ 5000000 ∧ calc_property_case_fee x = x * (8 / 1000) + 6800) ∨
    (5000000 < x ∧ x ≤ 10000000 ∧ calc_property_case_fee x = x * (7 / 1000) + 11800) ∨
    (10000000 < x ∧ x ≤ 20000000 ∧ calc_property_case_fee x = x * (6 / 1000) + 21800) ∨
    (20000000 < x ∧ 20000000 < x ∧ calc_property_case_fee x = x * (5 / 1000) + 41800) := by
  unfold calc_property_case_fee
  by_cases h1 : x ≤ 0
  · exact Or.inl ⟨h1, h1, by rw [if_pos h1]⟩
  · rw [if_neg h1]
    by_cases h2 : x ≤ 10000
    · exact Or.inr (Or.inl ⟨by linarith, h2, by rw [if_pos h2]⟩)
    · rw [if_neg h2]
      by_cases h3 : x ≤ 100000
      · exact Or.inr (Or.inr (Or.inl ⟨by linarith, h3, by rw [if_pos h3]⟩))
      · rw [if_neg h3]
        by_cases h4 : x ≤ 200000
        · exact Or.inr (Or.inr (Or.inr (Or.inl ⟨by linarith, h4, by rw [if_pos h4]⟩)))
        · rw [if_neg h4]
          by_cases h5 : x ≤ 500000
          · exact Or.inr (Or.inr (Or.inr (Or.inr (Or.inl ⟨by linarith, h5, by rw [if_pos h5]⟩))))
          · rw [if_neg h5]
            by_cases h6 : x ≤ 1000000
            · exact Or.inr (Or.inr (Or.inr (Or.inr (Or.inr (Or.inl ⟨by linarith, h6,
                by rw [if_pos h6]⟩)))))
            · rw [if_neg h6]
              by_cases h7 : x ≤ 2000000
              · exact Or.inr (Or.inr (Or.inr (Or.inr (Or.inr (Or.inr (Or.inl ⟨by linarith, h7,
                  by rw [if_pos h7]⟩))))))
              · rw [if_neg h7]
                by_cases h8 : x ≤ 5000000
                · exact Or.inr (Or.inr (Or.inr (Or.inr (Or.inr (Or.inr (Or.inr (Or.inl
                    ⟨by linarith, h8, by rw [if_pos h8]⟩)))))))
                · rw [if_neg h8]
                  by_cases h9 : x ≤ 10000000
                  · exact Or.inr (Or.inr (Or.inr (Or.inr (Or.inr (Or.inr (Or.inr (Or.inr (Or.inl
                      ⟨by linarith, h9, by rw [if_pos h9]⟩))))))))
                  · rw [if_neg h9]
                    by_cases h10 : x ≤ 20000000
                    · exact Or.inr (Or.inr (Or.inr (Or.inr (Or.inr (Or.inr (Or.inr (Or.inr (Or.inr
                        (Or.inl ⟨by linarith, h10, by rw [if_pos h10]⟩)))))))))
                    · rw [if_neg h10]
                      exact Or.inr (Or.inr (Or.inr (Or.inr (Or.inr (Or.inr (Or.inr (Or.inr (Or.inr
                        (Or.inr ⟨by linarith, by linarith, rfl⟩)))))))))

set_option maxHeartbeats 4000000 in
/-- `calc_property_case_fee` is non-decreasing, by the bracket decomposition. -/
theorem prop_fee_mono (a b : ℚ) (hab : a ≤ b) :
    calc_property_case_fee a ≤ calc_property_case_fee b := by
  rcases fee_cases a with ⟨ha1,ha2,ha3⟩|⟨ha1,ha2,ha3⟩|⟨ha1,ha2,ha3⟩|⟨ha1,ha2,ha3⟩|⟨ha1,ha2,ha3⟩|⟨ha1,ha2,ha3⟩|⟨ha1,ha2,ha3⟩|⟨ha1,ha2,ha3⟩|⟨ha1,ha2,ha3⟩|⟨ha1,ha2,ha3⟩|⟨ha1,ha2,ha3⟩ <;>
    rcases fee_cases b with ⟨hb1,hb2,hb3⟩|⟨hb1,hb2,hb3⟩|⟨hb1,hb2,hb3⟩|⟨hb1,hb2,hb3⟩|⟨hb1,hb2,hb3⟩|⟨hb1,hb2,hb3⟩|⟨hb1,hb2,hb3⟩|⟨hb1,hb2,hb3⟩|⟨hb1,hb2,hb3⟩|⟨hb1,hb2,hb3⟩|⟨hb1,hb2,hb3⟩ <;>
    rw [ha3, hb3] <;> linarith

/-! ## Rounding lemmas -/

theorem pyRound_lo (q : ℚ) (n : ℤ) (h1 : (n : ℚ) ≤ q) (h2 : q - n < 1 / 2) :
    pyRound q = n := by
  have hf : ⌊q⌋ = n := Int.floor_eq_iff.mpr ⟨h1, by linarith⟩
  unfold pyRound
  rw [hf, if_pos h2]

theorem pyRound_hi (q : ℚ) (n : ℤ) (h1 : (1 : ℚ) / 2 < q - n) (h2 : q < n + 1) :
    pyRound q = n + 1 := by
  have hf : ⌊q⌋ = n := Int.floor_eq_iff.mpr ⟨by linarith, by linarith⟩
  unfold pyRound
  rw [hf, if_neg (by linarith), if_pos h1]

theorem pyRound_nonneg (q : ℚ) (h : 0 ≤ q) : 0 ≤ pyRound q := by
  have h0 : 0 ≤ ⌊q⌋ := Int.floor_nonneg.mpr h
  unfold pyRound
  split_ifs <;> omega

/-- The unguarded branch of `calculate_interest`, for any cadence. -/
theorem interest_formula (amount rate : ℚ) (rt : RateType) (s e : Date) (db : ℤ)
    (hse : s.toOrdinal ≤ e.toOrdinal) (ha : 0 < amount) (hr : 0 < rate) :
    calculate_interest amount rate rt s e db =
      round2 (amount *
        ((match rt with
          | .day => rate * (db : ℚ)
          | .month => rate * 12
          | .year => rate) / 100) *
        ((((e.toOrdinal : ℤ) - (s.toOrdinal : ℤ) : ℤ) : ℚ) / (db : ℚ))) := by
  unfold calculate_interest
  rw [if_neg (by push_neg; exact ⟨by omega, by linarith, by linarith⟩)]

/-! ## Formatter lemmas -/

/-- The group loop returns a string (never hits the `big_units[group]`
`IndexError`) whenever the integer part has at most four base-10000 groups. -/
theorem intLoopF_some (fuel : ℕ) : ∀ (ip group : ℕ) (zf : Bool) (res : String),
    ip < fuel → ip < 10000 ^ (4 - group) →
    ∃ r, intLoopF fuel ip group zf res = some r := by
  induction fuel with
  | zero => intro ip group zf res hf hg; omega
  | succ fuel ih =>
    intro ip group zf res hf hg
    rw [intLoopF]
    by_cases hip : ip = 0
    · rw [if_pos hip]
      exact ⟨res, rfl⟩
    · rw [if_neg hip]
      simp only
      have hg4 : group < 4 := by
        by_contra hge
        push_neg at hge
        have h0 : 4 - group = 0 := by omega
        rw [h0, pow_zero] at hg
        omega
      have hfuel : ip / 10000 < fuel := by
        have := Nat.div_lt_self (Nat.pos_of_ne_zero hip) (by norm_num : 1 < 10000)
        omega
      have hgnext : ip / 10000 < 10000 ^ (4 - (group + 1)) := by
        interval_cases group <;> simp_all <;> omega
      by_cases hpart : ip % 10000 = 0
      · rw [if_pos hpart]
        exact ih (ip / 10000) (group + 1) true _ hfuel hgnext
      · rw [if_neg hpart]
        have hbu : ∃ bu, bigUnits group = some bu := by
          interval_cases group <;> exact ⟨_, rfl⟩
        obtain ⟨bu, hbu⟩ := hbu
        rw [hbu]
        exact ih (ip / 10000) (group + 1) _ _ hfuel hgnext

/-- `convert_nonneg` with its local bindings expanded. -/
theorem convert_nonneg_eq (num : ℚ) :
    convert_nonneg num =
      match (if pyInt num = 0 then some "零"
             else intLoopF ((pyInt num).toNat + 1) (pyInt num).toNat 0 false ""),
            fracSuffix (pyRound ((num - (pyInt num : ℚ)) * 100)) with
      | some r, some suf => some (r ++ "元" ++ suf)
      | _, _ => none := rfl

/-- The integer-part string is produced for every `0 ≤ num < 10^16`. -/
theorem convert_core_some (num : ℚ) (h0 : 0 ≤ num) (hlt : num < 10 ^ 16) :
    ∃ r, (if pyInt num = 0 then some "零"
          else intLoopF ((pyInt num).toNat + 1) (pyInt num).toNat 0 false "") = some r := by
  by_cases hz : pyInt num = 0
  · rw [if_pos hz]
    exact ⟨_, rfl⟩
  · rw [if_neg hz]
    apply intLoopF_some
    · omega
    · have hip : pyInt num < 10 ^ 16 := by
        unfold pyInt
        rw [Int.floor_lt]
        push_cast
        exact hlt
      have hip0 : 0 ≤ pyInt num := by
        unfold pyInt
        exact Int.floor_nonneg.mpr h0
      norm_num
      omega

theorem fracSuffix_ok (dec : ℤ) (h1 : dec ≠ 0) (h2 : 0 ≤ dec) (h3 : dec ≤ 99) :
    fracSuffix dec = some ((if dec / 10 = 0 then "" else numsStr (dec / 10).toNat ++ "角") ++
      (if dec % 10 = 0 then "" else numsStr (dec % 10).toNat ++ "分")) := by
  unfold fracSuffix
  rw [if_neg h1, if_neg (by omega)]

theorem conv_zero : convert_to_chinese_number 0 = some "零元整" := by
  have hz : pyInt (0 : ℚ) = 0 := by simp [pyInt]
  have hd : pyRound (((0 : ℚ) - (pyInt (0 : ℚ) : ℚ)) * 100) = 0 := by
    rw [hz]
    rw [show (((0 : ℚ) - ((0 : ℤ) : ℚ)) * 100) = 0 from by norm_num]
    exact pyRound_lo 0 0 (by norm_num) (by norm_num)
  unfold convert_to_chinese_number
  rw [if_neg (by norm_num), convert_nonneg_eq, hd, hz]
  rfl

/-- Every amount `0 ≤ num < 10^16` whose cents round to zero formats as
an integer-part string followed by 元整. -/
theorem convert_ends_exact (num : ℚ) (h0 : 0 ≤ num) (hlt : num < 10 ^ 16)
    (hdec : pyRound ((num - (pyInt num : ℚ)) * 100) = 0) :
    ∃ r, convert_to_chinese_number num = some (r ++ "元" ++ "整") := by
  obtain ⟨r, hr⟩ := convert_core_some num h0 hlt
  refine ⟨r, ?_⟩
  unfold convert_to_chinese_number
  rw [if_neg (by linarith), convert_nonneg_eq, hr, hdec]
  rfl

/-- Every amount `0 ≤ num < 10^16` whose cents round to a nonzero value of
at most 99 gets jiao/fen characters for the nonzero digits and no 整. -/
theorem convert_frac_shape (num : ℚ) (h0 : 0 ≤ num) (hlt : num < 10 ^ 16)
    (hdec : pyRound ((num - (pyInt num : ℚ)) * 100) ≠ 0)
    (hdec99 : pyRound ((num - (pyInt num : ℚ)) * 100) ≤ 99) :
    ∃ r, convert_to_chinese_number num = some (r ++ "元" ++
      ((if pyRound ((num - (pyInt num : ℚ)) * 100) / 10 = 0 then ""
        else numsStr (pyRound ((num - (pyInt num : ℚ)) * 100) / 10).toNat ++ "角") ++
       (if pyRound ((num - (pyInt num : ℚ)) * 100) % 10 = 0 then ""
        else numsStr (pyRound ((num - (pyInt num : ℚ)) * 100) % 10).toNat ++ "分"))) := by
  obtain ⟨r, hr⟩ := convert_core_some num h0 hlt
  refine ⟨r, ?_⟩
  have hd0 : 0 ≤ pyRound ((num - (pyInt num : ℚ)) * 100) := by
    apply pyRound_nonneg
    have hfl : (pyInt num : ℚ) ≤ num := Int.floor_le num
    nlinarith
  unfold convert_to_chinese_number
  rw [if_neg (by linarith), convert_nonneg_eq, hr,
    fracSuffix_ok _ hdec hd0 hdec99]

theorem pyInt_999 : pyInt (999 / 1000 : ℚ) = 0 := by
  unfold pyInt
  rw [Int.floor_eq_iff]
  norm_num

theorem dec_999 : pyRound (((999 / 1000 : ℚ) - (pyInt (999 / 1000 : ℚ) : ℚ)) * 100) = 100 := by
  rw [pyInt_999]
  rw [show (((999 / 1000 : ℚ) - ((0 : ℤ) : ℚ)) * 100) = 999 / 10 from by norm_num]
  rw [show (100 : ℤ) = 99 + 1 from by norm_num]
  exact pyRound_hi _ 99 (by norm_num) (by norm_num)

theorem fracSuffix_100 : fracSuffix 100 = none := by
  unfold fracSuffix
  rw [if_neg (by norm_num), if_pos (by norm_num)]

theorem pyInt_1e16 : pyInt (10 ^ 16 : ℚ) = 10 ^ 16 := by
  unfold pyInt
  rw [Int.floor_eq_iff]
  norm_num

theorem dec_1e16 : pyRound (((10 ^ 16 : ℚ) - (pyInt (10 ^ 16 : ℚ) : ℚ)) * 100) = 0 := by
  rw [pyInt_1e16]
  rw [show (((10 ^ 16 : ℚ) - ((10 ^ 16 : ℤ) : ℚ)) * 100) = 0 from by push_cast; ring]
  exact pyRound_lo 0 0 (by norm_num) (by norm_num)

/-- At 10^16 the group loop reaches a nonzero group with index 4, where
`big_units[group]` raises (`none`): the five groups are 0, 0, 0, 0, 1. -/
theorem intLoopF_1e16 : intLoopF (10 ^ 16 + 1) (10 ^ 16) 0 false "" = none := by
  decide

theorem conv_1e16_none : convert_to_chinese_number (10 ^ 16) = none := by
  unfold convert_to_chinese_number
  rw [if_neg (by norm_num), convert_nonneg_eq, dec_1e16, pyInt_1e16]
  rw [if_neg (by norm_num)]
  rw [show ((10 ^ 16 : ℤ)).toNat = 10 ^ 16 from by decide]
  rw [intLoopF_1e16]

/-! ## Scheduler lemmas -/

/-- `get_next_monday` always lands on weekday 0 (Monday). -/
theorem weekday_next_monday (d : ℤ) : weekday (get_next_monday d) = 0 := by
  unfold get_next_monday weekday
  omega

/-- The four-argument scheduler with its local bindings expanded. -/
theorem calc_court_eq (nd nds rds cd : ℤ) :
    CalcMod.calculate_court_date nd nds rds cd =
      ([nd, nd + nds, nd + nds + rds, nd + nds + rds + cd,
        if is_weekend (nd + nds + rds + cd) = true
        then get_next_monday (nd + nds + rds + cd)
        else nd + nds + rds + cd],
       if is_weekend (nd + nds + rds + cd) = true
       then get_next_monday (nd + nds + rds + cd)
       else nd + nds + rds + cd) := rfl

/-! ## Claims -/

/-- Claim C1: the spec says nonPropertyCaseFee on the DivorceNoProperty value
of the declared case-type enumeration returns 200 for amounts up to 200,000
and `200 + 0.005*(a - 200,000)` above.  The code evaluated at that input:
the declared `Literal` value "离婚无财产案件" matches no dispatch branch (the
branches test "离婚无财产案件（基数200）"), so the function falls through to the
final `return 0.0`; the claimed formulas are only reachable through the
undeclared suffixed string the UI passes. -/
theorem C1_declared_enum_dispatch :
    "离婚无财产案件" ∈ NonPropertyTypeValues ∧
    calc_non_property_case "离婚无财产案件" 100 = 0 ∧
    calc_non_property_case "离婚无财产案件" 300000 = 0 ∧
    calc_non_property_case "离婚无财产案件（基数200）" 100 = 200 ∧
    calc_non_property_case "离婚无财产案件（基数200）" 300000 =
      200 + (300000 - 200000) * (5 / 1000) := by
  refine ⟨by decide, by decide, by decide, ?_, ?_⟩
  · unfold calc_non_property_case
    rw [if_pos rfl, if_pos (by norm_num)]
  · unfold calc_non_property_case
    rw [if_pos rfl, if_neg (by norm_num)]

/-- Claim C2, counterexample: `daysBetween(2023-01-31, 2024-02-29)` does not
return `(1, 0, 29)`. -/
theorem C2_counterexample :
    calculate_days_between ⟨2023, 1, 31⟩ ⟨2024, 2, 29⟩ ≠ (1, 0, 29) := by
  decide

/-- Claim C2 (amended): `daysBetween(2023-01-31, 2024-02-29) = (1, 1, 0)`:
the year step lands on 2024-01-31 (no Feb-29 substitution is needed), and one
month step clamps Jan-31 to the 29 days of February 2024, reaching the end
date exactly, so one year, one month and zero remainder days. -/
theorem C2_amended_value :
    calculate_days_between ⟨2023, 1, 31⟩ ⟨2024, 2, 29⟩ = (1, 1, 0) := by
  decide

/-- Claim C3, counterexample: `executionFee(600000)` is not 8300. -/
theorem C3_counterexample : calc_execution_fee 600000 ≠ 8300 := by
  norm_num [calc_execution_fee]

/-- Claim C3 (amended): `executionFee(600000)` equals the sum of the marginal
band contributions `50 + 0.015*490000 + 0.01*100000`, which is 8400 (the
spec's total of 8300 is an arithmetic slip: the summands themselves are
50 + 7350 + 1000). -/
theorem C3_amended_value :
    calc_execution_fee 600000 = 50 + 490000 * (15 / 1000) + 100000 * (1 / 100) ∧
    calc_execution_fee 600000 = 8400 := by
  constructor <;> norm_num [calc_execution_fee]

/-- Claim C4, counterexample: for the valid pair start = 2023-01-31 ≤
end = 2024-01-29 the month component is 12, not at most 11 (the year step
2024-01-31 overshoots the end date, but twelve clamped month steps of 28 days
each stay inside it). -/
theorem C4_counterexample :
    (⟨2023, 1, 31⟩ : Date).Valid ∧ (⟨2024, 1, 29⟩ : Date).Valid ∧
    (⟨2023, 1, 31⟩ : Date).toOrdinal ≤ (⟨2024, 1, 29⟩ : Date).toOrdinal ∧
    (calculate_days_between ⟨2023, 1, 31⟩ ⟨2024, 1, 29⟩).2.1 = 12 ∧
    ¬ (calculate_days_between ⟨2023, 1, 31⟩ ⟨2024, 1, 29⟩).2.1 ≤ 11 := by
  refine ⟨by decide, by decide, by decide, by decide, by decide⟩

/-- Claim C4 (amended): for every pair of valid dates start ≤ end, the triple
returned by `calculate_days_between` satisfies years ≥ 0, 0 ≤ months ≤ 12 and
0 ≤ days ≤ 30 (months can reach 12, as the counterexample shows, but never
13: a thirteenth accepted month step would lie in a strictly later calendar
month than the rejected year step, hence past the end date). -/
theorem C4_amended_bounds (s e : Date) (hs : s.Valid) (he : e.Valid)
    (hse : s.toOrdinal ≤ e.toOrdinal) :
    0 ≤ (calculate_days_between s e).1 ∧
    (calculate_days_between s e).2.1 ≤ 12 ∧
    0 ≤ (calculate_days_between s e).2.2 ∧
    (calculate_days_between s e).2.2 ≤ 30 := by
  unfold calculate_days_between
  rw [if_neg (by omega)]
  simp only
  set Y := (yearLoopF (e.year + 1) e s).2 with hY
  have hYv : Y.Valid := yearLoopF_valid _ _ _ hs
  have hYle : Y.toOrdinal ≤ e.toOrdinal := yearLoopF_ord_le _ _ _ hse
  have hstopY : e.toOrdinal < (addYearPy Y).toOrdinal :=
    yearLoopF_stop (e.year + 1) e s hs he (by have := hs.1; omega)
  have hAv : (addYearPy Y).Valid := addYearPy_valid _ hYv
  have hAlin : (addYearPy Y).lin = Y.lin + 12 := addYearPy_lin Y
  set C := (monthLoopF 14 e Y).2 with hC
  have hCv : C.Valid := monthLoopF_valid _ _ _ hYv
  have hCle : C.toOrdinal ≤ e.toOrdinal := monthLoopF_ord_le _ _ _ hYle
  have hlin : C.lin = Y.lin + (monthLoopF 14 e Y).1 := monthLoopF_lin _ _ _ hYv
  have hstopM : e.toOrdinal < (nextMonthDate C).toOrdinal :=
    monthLoopF_stop 14 e Y (addYearPy Y) hYv hAv hstopY (by omega)
  have hnb : (nextMonthDate C).toOrdinal ≤ C.toOrdinal + 31 := nextMonthDate_ord_le _ hCv
  refine ⟨Nat.zero_le _, ?_, ?_, ?_⟩
  · by_contra hm
    push_neg at hm
    have hClin : (addYearPy Y).lin < C.lin := by omega
    have := lin_lt_ord_lt (addYearPy Y) C hAv hCv hClin
    omega
  · omega
  · omega

/-- Claim C4 witness: the amended bounds at the concrete valid pair
2024-01-05 ≤ 2024-03-20. -/
theorem C4_amended_bounds_witness :
    (⟨2024, 1, 5⟩ : Date).Valid ∧ (⟨2024, 3, 20⟩ : Date).Valid ∧
    (⟨2024, 1, 5⟩ : Date).toOrdinal ≤ (⟨2024, 3, 20⟩ : Date).toOrdinal ∧
    (0 ≤ (calculate_days_between ⟨2024, 1, 5⟩ ⟨2024, 3, 20⟩).1 ∧
     (calculate_days_between ⟨2024, 1, 5⟩ ⟨2024, 3, 20⟩).2.1 ≤ 12 ∧
     0 ≤ (calculate_days_between ⟨2024, 1, 5⟩ ⟨2024, 3, 20⟩).2.2 ∧
     (calculate_days_between ⟨2024, 1, 5⟩ ⟨2024, 3, 20⟩).2.2 ≤ 30) :=
  ⟨by decide, by decide, by decide,
   C4_amended_bounds ⟨2024, 1, 5⟩ ⟨2024, 3, 20⟩ (by decide) (by decide) (by decide)⟩

/-- Claim C5: the two-argument `calculate_court_date` returns
`(startDate, startDate)` when totalDays < 0; otherwise it returns
`(candidate, final)` with candidate = startDate + 1 day + totalDays, final =
candidate on weekdays and candidate + (7 - weekday(candidate)) on Saturday or
Sunday; in particular startDate = 2024-06-07 with totalDays = 0 gives
(2024-06-08, 2024-06-10). -/
theorem C5_court_date_two_arg :
    (∀ s total : ℤ, total < 0 → DateCalc.calculate_court_date s total = (s, s)) ∧
    (∀ s total : ℤ, 0 ≤ total →
      DateCalc.calculate_court_date s total =
        (s + 1 + total,
         if is_weekend (s + 1 + total) = true
         then s + 1 + total + (7 - weekday (s + 1 + total))
         else s + 1 + total)) ∧
    DateCalc.calculate_court_date ((⟨2024, 6, 7⟩ : Date).toOrdinal : ℤ) 0 =
      (((⟨2024, 6, 8⟩ : Date).toOrdinal : ℤ), ((⟨2024, 6, 10⟩ : Date).toOrdinal : ℤ)) := by
  refine ⟨?_, ?_, by decide⟩
  · intro s total h
    unfold DateCalc.calculate_court_date
    rw [if_pos h]
  · intro s total h
    unfold DateCalc.calculate_court_date
    rw [if_neg (by omega)]
    simp only
    have hc : (if 0 < total then s + 1 + total else s + 1) = s + 1 + total := by
      split_ifs with h0 <;> omega
    rw [hc]
    split_ifs with hw <;> rfl

/-- Claim C5 witness: both branches of the theorem at concrete inputs. -/
theorem C5_court_date_two_arg_witness :
    ((-3 : ℤ) < 0 ∧ DateCalc.calculate_court_date 5 (-3) = (5, 5)) ∧
    ((0 : ℤ) ≤ 4 ∧ DateCalc.calculate_court_date 10 4 =
      (15, if is_weekend 15 = true then 15 + (7 - weekday 15) else 15)) :=
  ⟨⟨by decide, C5_court_date_two_arg.1 5 (-3) (by decide)⟩,
   ⟨by decide, C5_court_date_two_arg.2.1 10 4 (by decide)⟩⟩

/-- Claim C6: `propertyCaseFee` is non-decreasing for every pair a ≤ b, and
at each listed bracket boundary the value (computed by the lower bracket)
agrees with the adjacent upper bracket's formula evaluated there. -/
theorem C6_fee_monotone_continuous :
    (∀ a b : ℚ, a ≤ b → calc_property_case_fee a ≤ calc_property_case_fee b) ∧
    calc_property_case_fee 10000 = 10000 * (25 / 1000) - 200 ∧
    calc_property_case_fee 100000 = 100000 * (2 / 100) + 300 ∧
    calc_property_case_fee 200000 = 200000 * (15 / 1000) + 1300 ∧
    calc_property_case_fee 500000 = 500000 * (1 / 100) + 3800 ∧
    calc_property_case_fee 1000000 = 1000000 * (9 / 1000) + 4800 ∧
    calc_property_case_fee 2000000 = 2000000 * (8 / 1000) + 6800 ∧
    calc_property_case_fee 5000000 = 5000000 * (7 / 1000) + 11800 ∧
    calc_property_case_fee 10000000 = 10000000 * (6 / 1000) + 21800 ∧
    calc_property_case_fee 20000000 = 20000000 * (5 / 1000) + 41800 := by
  refine ⟨prop_fee_mono, ?_, ?_, ?_, ?_, ?_, ?_, ?_, ?_, ?_⟩ <;>
    norm_num [calc_property_case_fee]

/-- Claim C6 witness: monotonicity applied at 300 ≤ 5000000. -/
theorem C6_fee_monotone_continuous_witness :
    (300 : ℚ) ≤ 5000000 ∧
    calc_property_case_fee 300 ≤ calc_property_case_fee 5000000 :=
  ⟨by norm_num, C6_fee_monotone_continuous.1 300 5000000 (by norm_num)⟩

/-- Claim C7: the worked interest example
`calculateInterest(100000, 1, Month, 2024-01-01, 2024-07-01, 365)` equals
`100000 * 0.12 * (182/365)` rounded to two decimals, i.e. 5983.56; and in
general (valid range, positive amount and rate) the interest is
`amount * (annualRate/100) * (days/yearBasis)` rounded to two decimals, the
annualized rate being rate * yearBasis for day cadence, rate * 12 for month
cadence and rate itself for year cadence, with days the raw ordinal
difference end - start. -/
theorem C7_interest_formula_and_value :
    calculate_interest 100000 1 RateType.month ⟨2024, 1, 1⟩ ⟨2024, 7, 1⟩ 365 =
      round2 (100000 * (12 / 100) * (182 / 365)) ∧
    calculate_interest 100000 1 RateType.month ⟨2024, 1, 1⟩ ⟨2024, 7, 1⟩ 365 = 5983.56 ∧
    (∀ amount rate : ℚ, ∀ s e : Date, ∀ db : ℤ,
      s.toOrdinal ≤ e.toOrdinal → 0 < amount → 0 < rate →
      calculate_interest amount rate RateType.day s e db =
        round2 (amount * ((rate * (db : ℚ)) / 100) *
          (((((e.toOrdinal : ℤ) - (s.toOrdinal : ℤ)) : ℤ) : ℚ) / (db : ℚ))) ∧
      calculate_interest amount rate RateType.month s e db =
        round2 (amount * ((rate * 12) / 100) *
          (((((e.toOrdinal : ℤ) - (s.toOrdinal : ℤ)) : ℤ) : ℚ) / (db : ℚ))) ∧
      calculate_interest amount rate RateType.year s e db =
        round2 (amount * (rate / 100) *
          (((((e.toOrdinal : ℤ) - (s.toOrdinal : ℤ)) : ℤ) : ℚ) / (db : ℚ)))) := by
  have hconc :
      calculate_interest 100000 1 RateType.month ⟨2024, 1, 1⟩ ⟨2024, 7, 1⟩ 365 =
        round2 (100000 * (12 / 100) * (182 / 365)) := by
    rw [interest_formula 100000 1 RateType.month ⟨2024, 1, 1⟩ ⟨2024, 7, 1⟩ 365
      (by decide) (by norm_num) (by norm_num)]
    rw [show (Date.toOrdinal ⟨2024, 7, 1⟩ : ℤ) - (Date.toOrdinal ⟨2024, 1, 1⟩ : ℤ) = 182
      from by decide]
    norm_num
  refine ⟨hconc, ?_, ?_⟩
  · rw [hconc]
    unfold round2
    rw [show (100000 * (12 / 100) * (182 / 365) : ℚ) * 100 = 43680000 / 73 from by norm_num]
    rw [pyRound_lo (43680000 / 73) 598356 (by norm_num) (by norm_num)]
    norm_num
  · intro amount rate s e db hse ha hr
    exact ⟨interest_formula amount rate RateType.day s e db hse ha hr,
      interest_formula amount rate RateType.month s e db hse ha hr,
      interest_formula amount rate RateType.year s e db hse ha hr⟩

/-- Claim C7 witness: the general formula applied at the worked example's
inputs with the year cadence. -/
theorem C7_interest_formula_and_value_witness :
    (⟨2024, 1, 1⟩ : Date).toOrdinal ≤ (⟨2024, 7, 1⟩ : Date).toOrdinal ∧
    (0 : ℚ) < 100000 ∧ (0 : ℚ) < 1 ∧
    calculate_interest 100000 1 RateType.year ⟨2024, 1, 1⟩ ⟨2024, 7, 1⟩ 365 =
      round2 (100000 * ((1 : ℚ) / 100) *
        ((((((⟨2024, 7, 1⟩ : Date).toOrdinal : ℤ) -
            ((⟨2024, 1, 1⟩ : Date).toOrdinal : ℤ)) : ℤ) : ℚ) / ((365 : ℤ) : ℚ))) :=
  ⟨by decide, by norm_num, by norm_num,
   (C7_interest_formula_and_value.2.2 100000 1 ⟨2024, 1, 1⟩ ⟨2024, 7, 1⟩ 365
     (by decide) (by norm_num) (by norm_num)).2.2⟩

/-- Claim C8: the engine clamps instead of raising: every amount a ≤ 0 gives
the documented floor values (propertyCaseFee 0, preservationFee 30,
executionFee 50), and calculateInterest returns 0 whenever start > end,
amount ≤ 0 or rate ≤ 0. -/
theorem C8_total_floors :
    (∀ a : ℚ, a ≤ 0 → calc_property_case_fee a = 0) ∧
    (∀ a : ℚ, a ≤ 0 → calc_preservation_fee a = 30) ∧
    (∀ a : ℚ, a ≤ 0 → calc_execution_fee a = 50) ∧
    (∀ amount rate : ℚ, ∀ rt : RateType, ∀ s e : Date, ∀ db : ℤ,
      e.toOrdinal < s.toOrdinal ∨ amount ≤ 0 ∨ rate ≤ 0 →
      calculate_interest amount rate rt s e db = 0) := by
  refine ⟨?_, ?_, ?_, ?_⟩
  · intro a h
    unfold calc_property_case_fee
    rw [if_pos h]
  · intro a h
    unfold calc_preservation_fee
    rw [if_pos (Or.inl h)]
  · intro a h
    unfold calc_execution_fee
    rw [if_pos h]
  · intro amount rate rt s e db h
    unfold calculate_interest
    rw [if_pos h]

/-- Claim C8 witness: the floors at amount -1 and a reversed date range. -/
theorem C8_total_floors_witness :
    (-1 : ℚ) ≤ 0 ∧
    calc_property_case_fee (-1) = 0 ∧
    calc_preservation_fee (-1) = 30 ∧
    calc_execution_fee (-1) = 50 ∧
    calculate_interest 100 1 RateType.year ⟨2024, 7, 1⟩ ⟨2024, 1, 1⟩ 365 = 0 :=
  ⟨by norm_num, C8_total_floors.1 (-1) (by norm_num),
   C8_total_floors.2.1 (-1) (by norm_num),
   C8_total_floors.2.2.1 (-1) (by norm_num),
   C8_total_floors.2.2.2 100 1 RateType.year ⟨2024, 7, 1⟩ ⟨2024, 1, 1⟩ 365
     (Or.inl (by decide))⟩

/-- Claim C9, counterexample: both universal clauses of the claim fail.  At
amount 0.999 the fractional part rounds to 100 cents (nonzero), yet the
formatter produces no output at all: Python indexes `nums[10]` and raises
`IndexError` (modelled as `none`), instead of appending jiao/fen characters.
At amount 10^16 the fractional part rounds to zero cents, yet again no
output is produced (nothing ending in 元整): the fifth base-10000 group makes
Python index `big_units[4]` and raise `IndexError`. -/
theorem C9_counterexample :
    (pyRound (((999 / 1000 : ℚ) - (pyInt (999 / 1000 : ℚ) : ℚ)) * 100) ≠ 0 ∧
     convert_to_chinese_number (999 / 1000) = none) ∧
    (pyRound (((10 ^ 16 : ℚ) - (pyInt (10 ^ 16 : ℚ) : ℚ)) * 100) = 0 ∧
     convert_to_chinese_number (10 ^ 16) = none) := by
  refine ⟨⟨?_, ?_⟩, dec_1e16, conv_1e16_none⟩
  · rw [dec_999]
    norm_num
  · unfold convert_to_chinese_number
    rw [if_neg (by norm_num)]
    rw [convert_nonneg_eq, dec_999, fracSuffix_100, pyInt_999]
    rfl

/-- Claim C9 (amended): `toTraditionalNumeral(0) = "零元整"`; every amount
`0 ≤ a < 10^16` whose fractional part rounds to zero cents formats as an
integer-part string followed by exactly 元整; and every such amount whose
fractional part rounds to a nonzero cent value of at most 99 gets the jiao
character only when the tens-of-cents digit is nonzero and the fen character
only when the cents digit is nonzero, with no 整 suffix.  (An amount whose
fraction rounds to 100 cents, or one of 10^16 or more, makes the formatter
raise instead of producing output: the counterexample exhibits both failure
modes, at 0.999 and at 10^16.) -/
theorem C9_amended_formatter :
    convert_to_chinese_number 0 = some "零元整" ∧
    (∀ num : ℚ, 0 ≤ num → num < 10 ^ 16 →
      pyRound ((num - (pyInt num : ℚ)) * 100) = 0 →
      ∃ r, convert_to_chinese_number num = some (r ++ "元" ++ "整")) ∧
    (∀ num : ℚ, 0 ≤ num → num < 10 ^ 16 →
      pyRound ((num - (pyInt num : ℚ)) * 100) ≠ 0 →
      pyRound ((num - (pyInt num : ℚ)) * 100) ≤ 99 →
      ∃ r, convert_to_chinese_number num = some (r ++ "元" ++
        ((if pyRound ((num - (pyInt num : ℚ)) * 100) / 10 = 0 then ""
          else numsStr (pyRound ((num - (pyInt num : ℚ)) * 100) / 10).toNat ++ "角") ++
         (if pyRound ((num - (pyInt num : ℚ)) * 100) % 10 = 0 then ""
          else numsStr (pyRound ((num - (pyInt num : ℚ)) * 100) % 10).toNat ++ "分")))) :=
  ⟨conv_zero,
   fun num h0 hlt hdec => convert_ends_exact num h0 hlt hdec,
   fun num h0 hlt hdec hdec99 => convert_frac_shape num h0 hlt hdec hdec99⟩

/-- Claim C9 witness: the exact-amount branch applied at 5 (whose cents
round to zero), yielding a string ending in 元整. -/
theorem C9_amended_formatter_witness :
    (0 : ℚ) ≤ 5 ∧ (5 : ℚ) < 10 ^ 16 ∧
    pyRound (((5 : ℚ) - (pyInt (5 : ℚ) : ℚ)) * 100) = 0 ∧
    ∃ r, convert_to_chinese_number 5 = some (r ++ "元" ++ "整") := by
  have h5 : pyInt (5 : ℚ) = 5 := by
    unfold pyInt
    rw [Int.floor_eq_iff]
    norm_num
  have hd : pyRound (((5 : ℚ) - (pyInt (5 : ℚ) : ℚ)) * 100) = 0 := by
    rw [h5]
    rw [show (((5 : ℚ) - ((5 : ℤ) : ℚ)) * 100) = 0 from by norm_num]
    exact pyRound_lo 0 0 (by norm_num) (by norm_num)
  exact ⟨by norm_num, by norm_num, hd,
    C9_amended_formatter.2.1 5 (by norm_num) (by norm_num) hd⟩

/-- Claim C10: the final court date never falls on Saturday or Sunday: for
every start ordinal and total_days ≥ 0 in the two-argument variant, and for
all inputs of the four-argument schedule variant; and `get_next_monday`
always lands on weekday 0 (Monday). -/
theorem C10_no_weekend_final :
    (∀ s total : ℤ, 0 ≤ total →
      is_weekend (DateCalc.calculate_court_date s total).2 = false) ∧
    (∀ nd nds rds cd : ℤ,
      is_weekend (CalcMod.calculate_court_date nd nds rds cd).2 = false) ∧
    (∀ d : ℤ, weekday (get_next_monday d) = 0) := by
  have hmon : ∀ d : ℤ, is_weekend (get_next_monday d) = false := by
    intro d
    have := weekday_next_monday d
    simp only [is_weekend, decide_eq_false_iff_not, not_le]
    omega
  refine ⟨?_, ?_, weekday_next_monday⟩
  · intro s total h
    unfold DateCalc.calculate_court_date
    rw [if_neg (by omega)]
    simp only
    by_cases hw : is_weekend (if 0 < total then s + 1 + total else s + 1) = true
    · rw [if_pos hw]
      exact hmon _
    · rw [if_neg hw]
      simpa using hw
  · intro nd nds rds cd
    rw [calc_court_eq]
    simp only
    by_cases hw : is_weekend (nd + nds + rds + cd) = true
    · rw [if_pos hw]
      exact hmon _
    · rw [if_neg hw]
      simpa using hw

/-- Claim C10 witness: the two-argument variant applied at the Friday
2024-06-07 ordinal with zero extra days. -/
theorem C10_no_weekend_final_witness :
    (0 : ℤ) ≤ 0 ∧
    is_weekend (DateCalc.calculate_court_date ((⟨2024, 6, 7⟩ : Date).toOrdinal : ℤ) 0).2 =
      false :=
  ⟨by decide, C10_no_weekend_final.1 ((⟨2024, 6, 7⟩ : Date).toOrdinal : ℤ) 0 (by decide)⟩
